import Mathlib

/-
Verification of the waste-bin monitoring program (src/main.py).

The embedding below models the monitoring state machine of the source:
the fill-level classification and LED drive of `update_bin_status`
(main.py lines 137-171), the notification throttle `should_send_email`
(lines 128-135), the transport wrapper `send_email_alert` (lines 85-126,
modelled by its observable result: HTTP status 201 means success, any
exception is caught and yields failure), the ultrasonic measurement
`measure_distance` (lines 60-83) over an explicit trace of echo-line
observations with a wraparound monotonic microsecond clock, and the
main loop `run` (lines 173-187).

Numeric conventions: Python int timestamps from time.time() are
modelled as Int; distances (Python floats) are modelled as Rat, which
is sign-exact and comparison-exact for the literals involved, so every
threshold comparison of the source is reproduced faithfully.
-/

namespace WasteBin

/-- Fill level of the bin. `empty`, `halfFull`, `full` correspond to the
spec states EMPTY, PARTIAL, FULL (the source branches of
`update_bin_status`: distance above the EMPTY threshold, between the two
thresholds, and at or below the HALF_FULL threshold). -/
inductive FillState where
  | empty
  | halfFull
  | full
deriving DecidableEq, Repr

/-- CONFIG DISTANCE_THRESHOLDS EMPTY (main.py line 23). -/
def THRESHOLD_EMPTY : ℚ := 30

/-- CONFIG DISTANCE_THRESHOLDS HALF_FULL (main.py line 24). -/
def THRESHOLD_HALF_FULL : ℚ := 10

/-- CONFIG EMAIL_DELAY (main.py line 26): notification cooldown. -/
def EMAIL_DELAY : Int := 300

/-- Monitor session state: the three throttle fields set in `__init__`
(main.py lines 40-42) together with the three LED output lines. -/
structure Session where
  last_email_time : Int
  is_currently_full : Bool
  first_full_detection : Bool
  green : Bool
  yellow : Bool
  red : Bool
deriving DecidableEq, Repr

/-- Freshly constructed session (main.py lines 31-42):
`last_email_time = 0`, `is_currently_full = False`,
`first_full_detection = True`.  The initial electrical state of the
three LED output pins is left unspecified and passed as parameters. -/
def initSession (g y r : Bool) : Session :=
  { last_email_time := 0
    is_currently_full := false
    first_full_detection := true
    green := g
    yellow := y
    red := r }

/-- Result of one transport attempt by `send_email_alert`
(main.py lines 120-126): either an HTTP response with a status code, or
an exception raised by the request. -/
inductive TransportResult where
  | response (status_code : Nat)
  | exn
deriving DecidableEq, Repr

/-- send_email_alert (main.py lines 85-126), modelled by its observable
boolean result: `response.status_code == 201` on a response, and `False`
when the transport raises (the `except` branch returns False). -/
def send_email_alert (tr : TransportResult) : Bool :=
  match tr with
  | .response code => code == 201
  | .exn => false

/-- should_send_email (main.py lines 128-135). `now` is the value read
from `time.time()`. -/
def should_send_email (s : Session) (now : Int) : Bool :=
  if s.first_full_detection then true
  else if now - s.last_email_time ≥ EMAIL_DELAY then true
  else false

/-- The fill-level classification performed by the branch structure of
`update_bin_status` (main.py lines 141, 149, 157): `distance > 30` is
EMPTY, otherwise `distance > 10` is PARTIAL, otherwise FULL. -/
def classify (distance : ℚ) : FillState :=
  if distance > THRESHOLD_EMPTY then .empty
  else if distance > THRESHOLD_HALF_FULL then .halfFull
  else .full

/-- update_bin_status (main.py lines 137-171) as a state transformer.
`now` is the `time.time()` read inside `should_send_email`; `now2` is
the separate `time.time()` read at line 170 stored on a successful send;
`tr` is the transport outcome consumed by `send_email_alert` when a send
is attempted.  In the full branch the source's conditional
`if not self.is_currently_full: self.is_currently_full = True` is an
unconditional set to True, and `should_send_email` is evaluated on the
state as already mutated by that assignment, exactly as in the source. -/
def update_bin_status (s : Session) (distance : ℚ) (now now2 : Int)
    (tr : TransportResult) : Session :=
  if distance > THRESHOLD_EMPTY then
    if s.is_currently_full then
      { s with green := true, yellow := false, red := false,
               is_currently_full := false, first_full_detection := true }
    else
      { s with green := true, yellow := false, red := false }
  else if distance > THRESHOLD_HALF_FULL then
    if s.is_currently_full then
      { s with green := false, yellow := true, red := false,
               is_currently_full := false, first_full_detection := true }
    else
      { s with green := false, yellow := true, red := false }
  else
    if should_send_email
        { s with green := false, yellow := false, red := true,
                 is_currently_full := true } now then
      if send_email_alert tr then
        { s with green := false, yellow := false, red := true,
                 is_currently_full := true,
                 last_email_time := now2, first_full_detection := false }
      else
        { s with green := false, yellow := false, red := true,
                 is_currently_full := true }
    else
      { s with green := false, yellow := false, red := true,
               is_currently_full := true }

/-- One monitoring iteration input: a distance reading together with the
two clock reads and the transport outcome of that iteration. -/
structure IterInput where
  distance : ℚ
  now : Int
  now2 : Int
  tr : TransportResult
deriving DecidableEq, Repr

/-- A sequence of `update_bin_status` calls, one per loop iteration. -/
def runUpdates (s : Session) (its : List IterInput) : Session :=
  its.foldl (fun s it => update_bin_status s it.distance it.now it.now2 it.tr) s

/-- Rank of a fill state under the ordering FULL > PARTIAL > EMPTY. -/
def fillRank : FillState → Nat
  | .empty => 0
  | .halfFull => 1
  | .full => 2

/-- The indicator pattern required for each fill state (spec 4.4):
EMPTY drives green only, PARTIAL yellow only, FULL red only. -/
def ledFor : FillState → Bool × Bool × Bool
  | .empty => (true, false, false)
  | .halfFull => (false, true, false)
  | .full => (false, false, true)

/-- Boolean test that exactly one of the three LED lines is active. -/
def ledExclusive (s : Session) : Bool :=
  (s.green && !s.yellow && !s.red) ||
  (!s.green && s.yellow && !s.red) ||
  (!s.green && !s.yellow && s.red)

/-- Concrete session with the full flag set and first detection already
consumed, used to instantiate hypotheses at concrete inputs. -/
def witnessSession : Session :=
  { last_email_time := 0
    is_currently_full := true
    first_full_detection := false
    green := false
    yellow := false
    red := true }

/-- Concrete prefix of non-full iterations (readings 50 and 20). -/
def witnessPre : List IterInput :=
  [⟨50, 0, 0, .exn⟩, ⟨20, 1, 1, .exn⟩]

/-- Tick counter period of the MicroPython time.ticks_us clock:
timestamps live in [0, 2^30) and wrap. -/
def TICKS_PERIOD : Nat := 2 ^ 30

/-- Half the tick period; `ticks_diff` results lie in
[-TICKS_PERIOD/2, TICKS_PERIOD/2). -/
def TICKS_HALF : Nat := 2 ^ 29

/-- time.ticks_add: advance a tick value, wrapping at the period. -/
def ticks_add (t delta : Nat) : Nat := (t + delta) % TICKS_PERIOD

/-- time.ticks_diff: wraparound-correct signed difference of two tick
values, the value congruent to a - b in
[-TICKS_PERIOD/2, TICKS_PERIOD/2). -/
def ticks_diff (a b : Nat) : Int :=
  (((a : Int) - (b : Int) + (TICKS_HALF : Int)) % (TICKS_PERIOD : Int))
    - (TICKS_HALF : Int)

/-- One loop iteration of the echo waits in `measure_distance`
(main.py lines 71-79): the echo level read by `self.echo.value()`, and
the elapsed real microseconds before each of the two `time.ticks_us()`
reads of that iteration (the pulse-timestamp read, then the read inside
the timeout check).  The clock is monotonic: absolute time only ever
advances, and tick values are absolute time reduced mod the period. -/
structure EchoSample where
  echo : Bool
  d1 : Nat
  d2 : Nat
deriving DecidableEq, Repr

/-- Result of one of the two echo-edge wait loops: the trace ran out
with the loop still spinning, the 30000 microsecond deadline fired, or
the loop exited on an edge with the recorded pulse tick, the absolute
time reached, and the unconsumed rest of the trace. -/
inductive WaitResult where
  | ranOut
  | timedOut
  | exited (pulse : Nat) (t : Nat) (rest : List EchoSample)
deriving DecidableEq, Repr

/-- The `while self.echo.value() == 0` wait (main.py lines 71-74):
while the level reads low, record `pulse_start = time.ticks_us()`, then
return the sentinel if `ticks_diff(ticks_us(), timeout) > 0`.  `t` is
absolute time, `pulse` the current pulse_start tick, `deadline` the
timeout tick. -/
def wait_rise : Nat → Nat → Nat → List EchoSample → WaitResult
  | _, _, _, [] => .ranOut
  | t, pulse, deadline, s :: rest =>
    if s.echo then .exited pulse t rest
    else if ticks_diff ((t + s.d1 + s.d2) % TICKS_PERIOD) deadline > 0 then
      .timedOut
    else wait_rise (t + s.d1 + s.d2) ((t + s.d1) % TICKS_PERIOD) deadline rest

/-- The `while self.echo.value() == 1` wait (main.py lines 76-79),
recording `pulse_end` while the level reads high. -/
def wait_fall : Nat → Nat → Nat → List EchoSample → WaitResult
  | _, _, _, [] => .ranOut
  | t, pulse, deadline, s :: rest =>
    if s.echo then
      if ticks_diff ((t + s.d1 + s.d2) % TICKS_PERIOD) deadline > 0 then
        .timedOut
      else wait_fall (t + s.d1 + s.d2) ((t + s.d1) % TICKS_PERIOD) deadline rest
    else .exited pulse t rest

/-- Observable result of `measure_distance`: the timeout sentinel path
(which the source returns as the number 100) or a computed distance. -/
inductive MeasureOutcome where
  | timeout
  | ok (d : ℚ)
deriving DecidableEq, Repr

/-- measure_distance (main.py lines 60-83) over an echo trace.  `t0` is
the absolute time of the initial `pulse_start = pulse_end =
time.ticks_us()` read; the timeout tick is `ticks_add(start, 30000)`.
Returns none when the trace is too short to decide the run (the source
would keep spinning), the timeout outcome when either wait hits the
deadline, and otherwise the distance
`ticks_diff(pulse_end, pulse_start) / 2 / 29.1` (29.1 as the exact
rational 291/10; exact rational arithmetic is sign-faithful to the
source's float arithmetic). -/
def measureOutcome (t0 : Nat) (trace : List EchoSample) : Option MeasureOutcome :=
  match wait_rise t0 (t0 % TICKS_PERIOD) (ticks_add (t0 % TICKS_PERIOD) 30000)
      trace with
  | .ranOut => none
  | .timedOut => some .timeout
  | .exited ps t1 rest =>
    match wait_fall t1 (t0 % TICKS_PERIOD) (ticks_add (t0 % TICKS_PERIOD) 30000)
        rest with
    | .ranOut => none
    | .timedOut => some .timeout
    | .exited pe _ _ =>
      some (.ok (((ticks_diff pe ps : Int) : ℚ) / 2 / (291 / 10)))

/-- The numeric value `measure_distance` returns: the timeout path
returns the literal 100 (main.py lines 74 and 79). -/
def measure_distance (t0 : Nat) (trace : List EchoSample) : Option ℚ :=
  match measureOutcome t0 trace with
  | none => none
  | some .timeout => some 100
  | some (.ok d) => some d

/-- Total real time consumed by a trace's clock reads. -/
def sumDur : List EchoSample → Nat
  | [] => 0
  | s :: rest => s.d1 + s.d2 + sumDur rest

/-- After the leading low samples, the first high sample (the read on
which the rise wait exits) must be followed, if anything follows, by
another high read: the fall wait then records pulse_end at least
once. -/
def afterLow : List EchoSample → Bool
  | [] => true
  | s :: rest =>
    if s.echo then
      match rest with
      | [] => true
      | s2 :: _ => s2.echo
    else afterLow rest

/-- Well-formed echo trace: either the first read is already high (the
rise wait never overwrites pulse_start), or the echo forms a proper
pulse so that pulse_end is recorded after pulse_start. -/
def traceOk : List EchoSample → Bool
  | [] => true
  | s :: rest => if s.echo then true else afterLow rest

/-- Echo trace on which the rise wait spins past the 30000 microsecond
deadline: a single low read whose timeout check happens 40000
microseconds after the trigger. -/
def witnessTimeoutTrace : List EchoSample := [⟨false, 0, 40000⟩]

/-- Glitch trace refuting non-negativity: one low read (pulse_start
advances to time 5), then a high read (the rise wait exits), then a low
read (the fall wait exits immediately, pulse_end still the initial
tick 0), giving pulse_duration ticks_diff(0, 5) = -5. -/
def witnessGlitchTrace : List EchoSample :=
  [⟨false, 5, 1⟩, ⟨true, 0, 0⟩, ⟨false, 0, 0⟩]

/-- Proper pulse trace: low (pulse_start at time 2), rise, one high
read (pulse_end at time 6), fall. -/
def witnessPulseTrace : List EchoSample :=
  [⟨false, 2, 1⟩, ⟨true, 0, 0⟩, ⟨true, 3, 1⟩, ⟨false, 0, 0⟩]

/-- One event seen by the monitor loop `run` (main.py lines 179-187):
either the iteration completes normally (a distance reading with the
iteration's clock reads and transport outcome), or some call inside the
`try` block raises, leaving the session in whatever intermediate state
the fault produced (carried by the event). -/
inductive IterEvent where
  | normal (input : IterInput)
  | fault (after : Session)
deriving DecidableEq, Repr

/-- One iteration of the monitor loop, with the sleep that follows it:
a normal iteration runs `update_bin_status` and sleeps 10; a raised
exception is caught by the `except` at the iteration boundary and is
followed by the recovery sleep 5.  There is no branch that exits the
loop. -/
def runStep (s : Session) (ev : IterEvent) : Session × Nat :=
  match ev with
  | .normal it => (update_bin_status s it.distance it.now it.now2 it.tr, 10)
  | .fault after => (after, 5)

/-- The monitor loop over a finite window of events, collecting the
sleep durations of every iteration it performed. -/
def runLoop : Session → List IterEvent → Session × List Nat
  | s, [] => (s, [])
  | s, ev :: evs =>
    ((runLoop (runStep s ev).1 evs).1,
     (runStep s ev).2 :: (runLoop (runStep s ev).1 evs).2)

/-- run (main.py lines 173-187): if `connect_wifi()` fails the method
returns before the loop is entered (modelled as none); otherwise the
loop runs. -/
def run (wifiOk : Bool) (s : Session) (evs : List IterEvent) :
    Option (Session × List Nat) :=
  if wifiOk then some (runLoop s evs) else none

/-- Sleep mandated after each kind of iteration: normal interval 10,
recovery interval 5. -/
def sleepFor : IterEvent → Nat
  | .normal _ => 10
  | .fault _ => 5

lemma classify_eq_full (d : ℚ) : classify d = .full ↔ d ≤ 10 := by
  unfold classify THRESHOLD_EMPTY THRESHOLD_HALF_FULL
  split_ifs with h1 h2 <;> simp_all <;> linarith

lemma classify_eq_empty (d : ℚ) : classify d = .empty ↔ 30 < d := by
  unfold classify THRESHOLD_EMPTY THRESHOLD_HALF_FULL
  split_ifs with h1 h2 <;> simp_all <;> linarith

lemma classify_eq_halfFull (d : ℚ) : classify d = .halfFull ↔ 10 < d ∧ d ≤ 30 := by
  unfold classify THRESHOLD_EMPTY THRESHOLD_HALF_FULL
  split_ifs with h1 h2 <;> simp_all <;> intro h <;> linarith

lemma should_send_email_ignores_leds (s : Session) (b g y r : Bool) (now : Int) :
    should_send_email
      { s with green := g, yellow := y, red := r, is_currently_full := b } now
    = should_send_email s now := by
  simp [should_send_email]

/-- Characterization of `update_bin_status` in the full branch. -/
lemma update_full_char (s : Session) (d : ℚ) (now now2 : Int)
    (tr : TransportResult) (h : classify d = .full) :
    update_bin_status s d now now2 tr =
      if should_send_email s now && send_email_alert tr then
        { s with green := false, yellow := false, red := true,
                 is_currently_full := true,
                 last_email_time := now2, first_full_detection := false }
      else
        { s with green := false, yellow := false, red := true,
                 is_currently_full := true } := by
  have h10 : d ≤ 10 := (classify_eq_full d).mp h
  unfold update_bin_status
  rw [if_neg (by unfold THRESHOLD_EMPTY; push_neg; linarith),
      if_neg (by unfold THRESHOLD_HALF_FULL; push_neg; linarith),
      should_send_email_ignores_leds]
  cases hss : should_send_email s now <;>
    cases hse : send_email_alert tr <;> simp [hss, hse]

/-- Characterization of `update_bin_status` in the empty branch. -/
lemma update_empty_char (s : Session) (d : ℚ) (now now2 : Int)
    (tr : TransportResult) (h : classify d = .empty) :
    update_bin_status s d now now2 tr =
      if s.is_currently_full then
        { s with green := true, yellow := false, red := false,
                 is_currently_full := false, first_full_detection := true }
      else
        { s with green := true, yellow := false, red := false } := by
  have h30 : 30 < d := (classify_eq_empty d).mp h
  unfold update_bin_status
  rw [if_pos (by unfold THRESHOLD_EMPTY; exact h30)]

/-- Characterization of `update_bin_status` in the half-full branch. -/
lemma update_halfFull_char (s : Session) (d : ℚ) (now now2 : Int)
    (tr : TransportResult) (h : classify d = .halfFull) :
    update_bin_status s d now now2 tr =
      if s.is_currently_full then
        { s with green := false, yellow := true, red := false,
                 is_currently_full := false, first_full_detection := true }
      else
        { s with green := false, yellow := true, red := false } := by
  obtain ⟨h10, h30⟩ := (classify_eq_halfFull d).mp h
  unfold update_bin_status
  rw [if_neg (by unfold THRESHOLD_EMPTY; push_neg; linarith),
      if_pos (by unfold THRESHOLD_HALF_FULL; exact h10)]

/-- A non-full iteration from a full session clears the full flag and
re-arms first detection; from a non-full session it leaves the two
throttle flags as they were.  In both cases `last_email_time` and
`first_full_detection = true` are preserved. -/
lemma nonfull_reset (s : Session) (d : ℚ) (now now2 : Int)
    (tr : TransportResult) (h : classify d ≠ .full) :
    (s.is_currently_full = true →
      (update_bin_status s d now now2 tr).is_currently_full = false ∧
      (update_bin_status s d now now2 tr).first_full_detection = true) ∧
    (update_bin_status s d now now2 tr).last_email_time = s.last_email_time ∧
    (s.first_full_detection = true →
      (update_bin_status s d now now2 tr).first_full_detection = true) := by
  rcases hc : classify d with he | hh | hf
  · rw [update_empty_char s d now now2 tr hc]
    cases hicf : s.is_currently_full <;> simp [hicf]
  · rw [update_halfFull_char s d now now2 tr hc]
    cases hicf : s.is_currently_full <;> simp [hicf]
  · exact absurd hc h

lemma runUpdates_preserves_flag (its : List IterInput) :
    ∀ s : Session, (∀ it ∈ its, classify it.distance ≠ .full) →
    s.first_full_detection = true →
    (runUpdates s its).first_full_detection = true := by
  induction its with
  | nil => intro s _ hs; exact hs
  | cons it rest ih =>
    intro s hall hs
    have hstep := (nonfull_reset s it.distance it.now it.now2 it.tr
      (hall it (by simp))).2.2 hs
    have hrest : ∀ it2 ∈ rest, classify it2.distance ≠ .full := by
      intro it2 hmem; exact hall it2 (by simp [hmem])
    simpa [runUpdates] using
      ih (update_bin_status s it.distance it.now it.now2 it.tr) hrest hstep

/-- C1 counterexample: the claim (and the spec tie-break) says a reading
exactly equal to the empty boundary (30) is EMPTY, but
`update_bin_status` takes the `distance > 30` test as false and falls
into the `distance > 10` branch, so a reading of exactly 30 is PARTIAL,
not EMPTY. -/
theorem classify_empty_boundary_counterexample :
    classify 30 = FillState.halfFull ∧ classify 30 ≠ FillState.empty := by
  constructor <;> decide

/-- C1 (amended): for every non-negative distance, `distance > 30` is
EMPTY, `10 < distance ≤ 30` is PARTIAL and `distance ≤ 10` is FULL; at
the boundaries, a reading exactly equal to the empty boundary (30) is
PARTIAL (not EMPTY as the spec tie-break says) and a reading exactly
equal to the half-full boundary (10) is FULL. -/
theorem classify_thresholds_amended :
    ∀ d : ℚ, 0 ≤ d →
    (30 < d → classify d = FillState.empty) ∧
    (10 < d ∧ d ≤ 30 → classify d = FillState.halfFull) ∧
    (d ≤ 10 → classify d = FillState.full) ∧
    classify THRESHOLD_EMPTY = FillState.halfFull ∧
    classify THRESHOLD_HALF_FULL = FillState.full := by
  intro d _
  refine ⟨fun h => (classify_eq_empty d).mpr h,
          fun h => (classify_eq_halfFull d).mpr h,
          fun h => (classify_eq_full d).mpr h, by decide, by decide⟩

/-- Witness for the amended C1 theorem at distance 50. -/
theorem classify_thresholds_amended_witness :
    classify 50 = FillState.empty :=
  (classify_thresholds_amended 50 (by norm_num)).1 (by norm_num)

/-- C2: from a fresh session, after any prefix of non-FULL iterations,
the first FULL iteration evaluates `should_send_email` to true; and
immediately after a successful send (HTTP 201) on that iteration, a
second consecutive FULL iteration whose current time is within the
cooldown of the recorded send time evaluates `should_send_email` to
false. -/
theorem fresh_session_first_full_notifies :
    ∀ (g y r : Bool) (pre : List IterInput) (d : ℚ) (now now2 now3 : Int),
    (∀ it ∈ pre, classify it.distance ≠ .full) →
    classify d = .full →
    should_send_email (runUpdates (initSession g y r) pre) now = true ∧
    (now3 - (update_bin_status (runUpdates (initSession g y r) pre) d now now2
        (.response 201)).last_email_time < EMAIL_DELAY →
      should_send_email (update_bin_status (runUpdates (initSession g y r) pre)
        d now now2 (.response 201)) now3 = false) := by
  intro g y r pre d now now2 now3 hpre hc
  have hffd : (runUpdates (initSession g y r) pre).first_full_detection = true :=
    runUpdates_preserves_flag pre (initSession g y r) hpre rfl
  have hss : should_send_email (runUpdates (initSession g y r) pre) now = true := by
    simp [should_send_email, hffd]
  have hsend : send_email_alert (.response 201) = true := rfl
  have hupd := update_full_char (runUpdates (initSession g y r) pre)
    d now now2 (.response 201) hc
  rw [hss, hsend] at hupd
  simp only [Bool.and_self, if_true] at hupd
  refine ⟨hss, fun hlt => ?_⟩
  rw [hupd] at hlt ⊢
  simp [should_send_email, EMAIL_DELAY] at hlt ⊢
  omega

/-- Witness for C2: the two non-FULL readings 50 and 20, then a FULL
reading of 8 with a successful send at time 2, then a second FULL check
at time 3 (within the 300-unit cooldown). -/
theorem fresh_session_first_full_notifies_witness :
    should_send_email (runUpdates (initSession false false false) witnessPre) 2
      = true ∧
    should_send_email (update_bin_status
      (runUpdates (initSession false false false) witnessPre) 8 2 2
      (.response 201)) 3 = false := by
  obtain ⟨h1, h2⟩ := fresh_session_first_full_notifies false false false
    witnessPre 8 2 2 3 (by decide) (by decide)
  exact ⟨h1, h2 (by decide)⟩

/-- C3: with `first_full_detection` false, once `now - last_email_time`
reaches the cooldown (inclusively: equality triggers), the throttle
decides to send; and on a FULL iteration with a successful send, the
send time is recorded and first detection is cleared. -/
theorem cooldown_elapsed_notifies :
    ∀ (s : Session) (d : ℚ) (now now2 : Int) (tr : TransportResult),
    s.first_full_detection = false →
    EMAIL_DELAY ≤ now - s.last_email_time →
    should_send_email s now = true ∧
    (classify d = .full → send_email_alert tr = true →
      (update_bin_status s d now now2 tr).last_email_time = now2 ∧
      (update_bin_status s d now now2 tr).first_full_detection = false) := by
  intro s d now now2 tr hffd hcool
  have hss : should_send_email s now = true := by
    simp [should_send_email, hffd, hcool]
  refine ⟨hss, fun hc hsend => ?_⟩
  rw [update_full_char s d now now2 tr hc, hss, hsend]
  simp

/-- Witness for C3 at the exact cooldown boundary: last send at time 0,
current time 300 = EMAIL_DELAY, reading 5, transport answers 201. -/
theorem cooldown_elapsed_notifies_witness :
    should_send_email witnessSession 300 = true ∧
    (update_bin_status witnessSession 5 300 301 (.response 201)).last_email_time
      = 301 ∧
    (update_bin_status witnessSession 5 300 301
      (.response 201)).first_full_detection = false := by
  obtain ⟨h1, h2⟩ := cooldown_elapsed_notifies witnessSession 5 300 301
    (.response 201) rfl (by decide)
  obtain ⟨h3, h4⟩ := h2 (by decide) rfl
  exact ⟨h1, h3, h4⟩

/-- C4: a non-FULL iteration while the session is marked full clears
`is_currently_full` and re-arms `first_full_detection`; consequently
after FULL then non-FULL, a following FULL iteration evaluates
`should_send_email` to true at any current time, regardless of the
recorded last send time. -/
theorem nonfull_resets_and_rearms :
    ∀ (s : Session) (dN dF dF2 : ℚ) (n1 n2 n3 n4 n5 : Int)
      (t1 t2 : TransportResult),
    (classify dN ≠ .full → s.is_currently_full = true →
      (update_bin_status s dN n1 n2 t1).is_currently_full = false ∧
      (update_bin_status s dN n1 n2 t1).first_full_detection = true) ∧
    (classify dF = .full → classify dN ≠ .full → classify dF2 = .full →
      should_send_email
        (update_bin_status (update_bin_status s dF n1 n2 t1) dN n3 n4 t2) n5
        = true) := by
  intro s dN dF dF2 n1 n2 n3 n4 n5 t1 t2
  constructor
  · intro hN hicf
    exact (nonfull_reset s dN n1 n2 t1 hN).1 hicf
  · intro hF hN _
    have hicf1 : (update_bin_status s dF n1 n2 t1).is_currently_full = true := by
      rw [update_full_char s dF n1 n2 t1 hF]
      split <;> simp
    have hffd2 := ((nonfull_reset (update_bin_status s dF n1 n2 t1)
      dN n3 n4 t2 hN).1 hicf1).2
    simp [should_send_email, hffd2]

/-- Witness for C4: FULL at 8 (send succeeds at time 0), then EMPTY at
50, then a FULL check at time 2, well within the cooldown. -/
theorem nonfull_resets_and_rearms_witness :
    (update_bin_status witnessSession 50 0 0 (.response 201)).is_currently_full
      = false ∧
    (update_bin_status witnessSession 50 0 0
      (.response 201)).first_full_detection = true ∧
    should_send_email (update_bin_status
      (update_bin_status witnessSession 8 0 0 (.response 201)) 50 1 1 .exn) 2
      = true := by
  obtain ⟨hA, hB⟩ := nonfull_resets_and_rearms witnessSession 50 8 8 0 0 1 1 2
    (.response 201) .exn
  obtain ⟨h1, h2⟩ := hA (by decide) rfl
  exact ⟨h1, h2, hB (by decide) (by decide) (by decide)⟩

/-- C5: on a FULL iteration, a failed send (any non-201 response or a
transport exception, which `send_email_alert` catches and turns into
False) leaves `last_email_time` and `first_full_detection` unchanged;
they are set to the current time and to false only when the send
succeeds. -/
theorem failed_send_leaves_state :
    ∀ (s : Session) (d : ℚ) (now now2 : Int) (tr : TransportResult),
    classify d = .full →
    (send_email_alert tr = false →
      (update_bin_status s d now now2 tr).last_email_time = s.last_email_time ∧
      (update_bin_status s d now now2 tr).first_full_detection
        = s.first_full_detection) ∧
    (send_email_alert tr = true → should_send_email s now = true →
      (update_bin_status s d now now2 tr).last_email_time = now2 ∧
      (update_bin_status s d now now2 tr).first_full_detection = false) := by
  intro s d now now2 tr hc
  constructor
  · intro hfail
    rw [update_full_char s d now now2 tr hc]
    simp [hfail]
  · intro hok hss
    rw [update_full_char s d now now2 tr hc]
    simp [hok, hss]

/-- Witness for C5: transport exception on a fresh session leaves the
state unchanged; a 201 response records time 1 and clears the flag. -/
theorem failed_send_leaves_state_witness :
    (update_bin_status (initSession false false false) 8 0 1
      .exn).last_email_time = 0 ∧
    (update_bin_status (initSession false false false) 8 0 1
      .exn).first_full_detection = true ∧
    (update_bin_status (initSession false false false) 8 0 1
      (.response 201)).last_email_time = 1 ∧
    (update_bin_status (initSession false false false) 8 0 1
      (.response 201)).first_full_detection = false := by
  obtain ⟨hf, _⟩ := failed_send_leaves_state (initSession false false false)
    8 0 1 .exn (by decide)
  obtain ⟨_, hs⟩ := failed_send_leaves_state (initSession false false false)
    8 0 1 (.response 201) (by decide)
  obtain ⟨h1, h2⟩ := hf rfl
  obtain ⟨h3, h4⟩ := hs rfl (by decide)
  exact ⟨h1, h2, h3, h4⟩

/-- C8: after every call to `update_bin_status`, the three LED lines
show exactly the pattern of the classified state (EMPTY green only,
PARTIAL yellow only, FULL red only), so exactly one of the three is
active. -/
theorem leds_mutually_exclusive :
    ∀ (s : Session) (d : ℚ) (now now2 : Int) (tr : TransportResult),
    ((update_bin_status s d now now2 tr).green,
     (update_bin_status s d now now2 tr).yellow,
     (update_bin_status s d now now2 tr).red) = ledFor (classify d) ∧
    ledExclusive (update_bin_status s d now now2 tr) = true := by
  intro s d now now2 tr
  cases hc : classify d with
  | empty =>
    rw [update_empty_char s d now now2 tr hc]
    cases hicf : s.is_currently_full <;> simp [hicf, ledFor, ledExclusive]
  | halfFull =>
    rw [update_halfFull_char s d now now2 tr hc]
    cases hicf : s.is_currently_full <;> simp [hicf, ledFor, ledExclusive]
  | full =>
    rw [update_full_char s d now now2 tr hc]
    split <;> simp [ledFor, ledExclusive]

/-- C10: the classification is monotone in the distance: a smaller
distance reading is classified at least as full (FULL > PARTIAL > EMPTY)
as a larger one, for the configured thresholds 30 > 10. -/
theorem classify_monotone :
    ∀ d1 d2 : ℚ, d1 ≤ d2 → fillRank (classify d2) ≤ fillRank (classify d1) := by
  intro d1 d2 h
  unfold classify THRESHOLD_EMPTY THRESHOLD_HALF_FULL
  split_ifs <;> simp [fillRank] <;> linarith

/-- Witness for C10 at distances 5 and 50. -/
theorem classify_monotone_witness :
    fillRank (classify 50) ≤ fillRank (classify 5) :=
  classify_monotone 5 50 (by norm_num)

lemma ticks_diff_self (x : Nat) : ticks_diff x x = 0 := by
  unfold ticks_diff TICKS_PERIOD TICKS_HALF
  omega

lemma ticks_diff_add (y delta : Nat) (h : delta < 2 ^ 29) :
    ticks_diff ((y + delta) % TICKS_PERIOD) (y % TICKS_PERIOD) = (delta : Int) := by
  unfold ticks_diff TICKS_PERIOD TICKS_HALF
  omega

lemma ticks_diff_nonneg_of_between (b c : Nat) (hbc : b ≤ c)
    (hlt : c - b < 2 ^ 29) :
    ticks_diff (c % TICKS_PERIOD) (b % TICKS_PERIOD) = ((c - b : Nat) : Int) := by
  obtain ⟨delta, rfl⟩ : ∃ delta, c = b + delta := ⟨c - b, by omega⟩
  rw [Nat.add_sub_cancel_left]
  exact ticks_diff_add b delta (by omega)

/-- The rise wait, called with pulse tick `a % period` for some absolute
time `a ≤ t`, exits with a pulse tick taken at an absolute time between
`a` and the exit time, and the exit time accounts for the consumed
duration. -/
lemma wait_rise_spec :
    ∀ (tr : List EchoSample) (t a deadline ps te : Nat)
      (rest : List EchoSample),
    a ≤ t →
    wait_rise t (a % TICKS_PERIOD) deadline tr = .exited ps te rest →
    ∃ b, ps = b % TICKS_PERIOD ∧ a ≤ b ∧ b ≤ te ∧ t ≤ te ∧
      te + sumDur rest ≤ t + sumDur tr := by
  intro tr
  induction tr with
  | nil => intro t a deadline ps te rest _ h; simp [wait_rise] at h
  | cons s r ih =>
    intro t a deadline ps te rest hat h
    cases hse : s.echo with
    | true =>
      simp [wait_rise, hse] at h
      obtain ⟨h1, h2, h3⟩ := h
      subst h2; subst h3
      exact ⟨a, h1.symm, le_refl a, hat, le_refl t, by simp only [sumDur]; omega⟩
    | false =>
      simp [wait_rise, hse] at h
      split at h
      · simp at h
      · obtain ⟨b, hps, hab, hbte, htte, hbound⟩ :=
          ih (t + s.d1 + s.d2) (t + s.d1) deadline ps te rest (by omega) h
        exact ⟨b, hps, by omega, hbte, by omega, by simp only [sumDur]; omega⟩

/-- If the trace satisfies `afterLow`, the rise wait exits into a rest
that is empty or starts with a high read. -/
lemma wait_rise_afterLow :
    ∀ (tr : List EchoSample) (t p deadline ps te : Nat)
      (rest : List EchoSample),
    afterLow tr = true →
    wait_rise t p deadline tr = .exited ps te rest →
    rest = [] ∨ ∃ s2 r2, rest = s2 :: r2 ∧ s2.echo = true := by
  intro tr
  induction tr with
  | nil => intro t p deadline ps te rest _ h; simp [wait_rise] at h
  | cons s r ih =>
    intro t p deadline ps te rest hok h
    cases hse : s.echo with
    | true =>
      simp [wait_rise, hse] at h
      obtain ⟨_, _, h3⟩ := h
      subst h3
      cases r with
      | nil => exact Or.inl rfl
      | cons s2 r2 =>
        refine Or.inr ⟨s2, r2, rfl, ?_⟩
        simpa [afterLow, hse] using hok
    | false =>
      simp [wait_rise, hse] at h
      split at h
      · simp at h
      · exact ih _ _ _ _ _ _ (by simpa [afterLow, hse] using hok) h

/-- The fall wait either exits immediately (returning its pulse
argument at its entry time) or returns a pulse tick taken at an
absolute time between entry and exit. -/
lemma wait_fall_spec :
    ∀ (tr : List EchoSample) (t p deadline pe tf : Nat)
      (rest2 : List EchoSample),
    wait_fall t p deadline tr = .exited pe tf rest2 →
    (pe = p ∧ tf = t) ∨
    (∃ b, pe = b % TICKS_PERIOD ∧ t ≤ b ∧ b ≤ tf ∧ tf ≤ t + sumDur tr) := by
  intro tr
  induction tr with
  | nil => intro t p deadline pe tf rest2 h; simp [wait_fall] at h
  | cons s r ih =>
    intro t p deadline pe tf rest2 h
    cases hse : s.echo with
    | false =>
      simp [wait_fall, hse] at h
      obtain ⟨h1, h2, _⟩ := h
      exact Or.inl ⟨h1.symm, h2.symm⟩
    | true =>
      simp [wait_fall, hse] at h
      split at h
      · simp at h
      · rcases ih _ _ _ _ _ _ h with ⟨hpe, htf⟩ | ⟨b, hpe, h1, h2, h3⟩
        · exact Or.inr ⟨t + s.d1, hpe, by omega, by omega,
            by simp only [sumDur]; omega⟩
        · exact Or.inr ⟨b, hpe, by omega, h2, by simp only [sumDur]; omega⟩

/-- When the fall wait starts on a high read and exits, the returned
pulse_end tick was taken at an absolute time at or after entry. -/
lemma wait_fall_high (s : EchoSample) (r : List EchoSample)
    (t p deadline pe tf : Nat) (rest2 : List EchoSample)
    (hse : s.echo = true)
    (h : wait_fall t p deadline (s :: r) = .exited pe tf rest2) :
    ∃ b, pe = b % TICKS_PERIOD ∧ t ≤ b ∧ b ≤ t + sumDur (s :: r) := by
  simp [wait_fall, hse] at h
  split at h
  · simp at h
  · rcases wait_fall_spec r _ _ _ _ _ _ h with ⟨hpe, htf⟩ | ⟨b, hpe, h1, h2, h3⟩
    · exact ⟨t + s.d1, hpe, by omega, by simp only [sumDur]; omega⟩
    · exact ⟨b, hpe, by omega, by simp only [sumDur]; omega⟩

/-- C6: whenever either echo-edge wait exceeds the 30000 microsecond
deadline, `measure_distance` returns the fixed sentinel 100 (no error
path exists: the timeout returns a value), and 100 classifies as EMPTY,
never FULL, under the configured thresholds 30 and 10. -/
theorem timeout_sentinel_classifies_empty :
    ∀ (t0 : Nat) (trace : List EchoSample),
    measureOutcome t0 trace = some .timeout →
    measure_distance t0 trace = some 100 ∧
    classify 100 = FillState.empty ∧ classify 100 ≠ FillState.full := by
  intro t0 trace h
  refine ⟨?_, by decide, by decide⟩
  simp [measure_distance, h]

/-- Witness for C6: the deadline fires on the trace above. -/
theorem timeout_sentinel_classifies_empty_witness :
    measure_distance 0 witnessTimeoutTrace = some 100 ∧
    classify 100 = FillState.empty :=
  ⟨(timeout_sentinel_classifies_empty 0 witnessTimeoutTrace (by decide)).1,
   (timeout_sentinel_classifies_empty 0 witnessTimeoutTrace (by decide)).2.1⟩

/-- C7 counterexample: a run of `measure_distance` that completes
without hitting the timeout deadline and returns the negative distance
-25/291 (= -5 / 2 / 29.1).  The echo line reads low once (pulse_start
is overwritten with a later tick), then high (the rise wait exits),
then low again (the fall wait exits without ever writing pulse_end), so
pulse_duration = ticks_diff(pulse_end, pulse_start) = -5 < 0. -/
theorem measure_distance_negative_counterexample :
    measureOutcome 0 witnessGlitchTrace = some (.ok (-25 / 291)) ∧
    measure_distance 0 witnessGlitchTrace = some (-25 / 291) ∧
    ((-25 / 291 : ℚ) < 0) := by
  have hrise : wait_rise 0 (0 % TICKS_PERIOD) (ticks_add (0 % TICKS_PERIOD) 30000)
      witnessGlitchTrace = .exited 5 6 [⟨false, 0, 0⟩] := by decide
  have hfall : wait_fall 6 (0 % TICKS_PERIOD) (ticks_add (0 % TICKS_PERIOD) 30000)
      ([⟨false, 0, 0⟩] : List EchoSample) = .exited 0 6 [] := by decide
  have hd : ticks_diff 0 5 = -5 := by decide
  have hout : measureOutcome 0 witnessGlitchTrace = some (.ok (-25 / 291)) := by
    simp only [measureOutcome, hrise, hfall, hd]
    norm_num
  refine ⟨hout, ?_, by norm_num⟩
  simp [measure_distance, hout]

/-- C7 (amended): for every completed, non-timeout run of
`measure_distance` whose echo trace is a proper pulse (`traceOk`: after
the read on which the first wait exits, the next read, if any, is still
high, so pulse_end is recorded at or after pulse_start — the property
the unamended claim lacks) and whose total duration fits in half the
tick period (so wraparound-safe subtraction is exact), the returned
distance is non-negative. -/
theorem measure_distance_nonneg_amended :
    ∀ (t0 : Nat) (trace : List EchoSample) (d : ℚ),
    traceOk trace = true →
    sumDur trace < 2 ^ 29 →
    measureOutcome t0 trace = some (.ok d) →
    0 ≤ d := by
  intro t0 trace d hok hsum hout
  unfold measureOutcome at hout
  cases hrise : wait_rise t0 (t0 % TICKS_PERIOD)
      (ticks_add (t0 % TICKS_PERIOD) 30000) trace with
  | ranOut => rw [hrise] at hout; simp at hout
  | timedOut => rw [hrise] at hout; simp at hout
  | exited ps te rest =>
    rw [hrise] at hout
    simp only at hout
    cases hfall : wait_fall te (t0 % TICKS_PERIOD)
        (ticks_add (t0 % TICKS_PERIOD) 30000) rest with
    | ranOut => rw [hfall] at hout; simp at hout
    | timedOut => rw [hfall] at hout; simp at hout
    | exited pe tf rest2 =>
      rw [hfall] at hout
      simp only [Option.some.injEq, MeasureOutcome.ok.injEq] at hout
      subst hout
      have key : 0 ≤ ticks_diff pe ps := by
        cases trace with
        | nil => simp [wait_rise] at hrise
        | cons s tail =>
          cases hse : s.echo with
          | true =>
            have hA : wait_rise t0 (t0 % TICKS_PERIOD)
                (ticks_add (t0 % TICKS_PERIOD) 30000) (s :: tail)
                = .exited (t0 % TICKS_PERIOD) t0 tail := by
              simp [wait_rise, hse]
            rw [hrise] at hA
            obtain ⟨h1, h2, h3⟩ := by simpa using hA
            rw [h2, h3] at hfall
            rcases wait_fall_spec tail t0 (t0 % TICKS_PERIOD) _ pe tf rest2
                hfall with ⟨hpe, _⟩ | ⟨b, hpe, hb1, hb2, hb3⟩
            · rw [hpe, h1, ticks_diff_self]
            · have hd : b - t0 < 2 ^ 29 := by
                simp only [sumDur] at hsum; omega
              rw [hpe, h1, ticks_diff_nonneg_of_between t0 b hb1 hd]
              omega
          | false =>
            have hok2 : afterLow tail = true := by
              simpa [traceOk, hse] using hok
            simp [wait_rise, hse] at hrise
            split at hrise
            · simp at hrise
            · obtain ⟨b, hps, hab, hbte, htte, hbound⟩ :=
                wait_rise_spec tail (t0 + s.d1 + s.d2) (t0 + s.d1) _
                  ps te rest (by omega) hrise
              rcases wait_rise_afterLow tail _ _ _ _ _ _ hok2 hrise with
                hrest | ⟨s2, r2, hrest, hs2⟩
              · subst hrest; simp [wait_fall] at hfall
              · subst hrest
                obtain ⟨c, hpe, htc, hcb⟩ :=
                  wait_fall_high s2 r2 te (t0 % TICKS_PERIOD) _ pe tf rest2
                    hs2 hfall
                have hbc : b ≤ c := le_trans hbte htc
                have hd : c - b < 2 ^ 29 := by
                  simp only [sumDur] at hsum hbound hcb; omega
                rw [hps, hpe, ticks_diff_nonneg_of_between b c hbc hd]
                omega
      have h2 : (0 : ℚ) ≤ ((ticks_diff pe ps : Int) : ℚ) := by exact_mod_cast key
      exact div_nonneg (div_nonneg h2 (by norm_num)) (by norm_num)

/-- Witness for the amended C7 theorem on the proper pulse trace:
pulse_start at time 2, pulse_end at time 6, distance 4 / 2 / 29.1 =
20/291 ≥ 0. -/
theorem measure_distance_nonneg_amended_witness :
    (0 : ℚ) ≤ 20 / 291 := by
  have hrise : wait_rise 0 (0 % TICKS_PERIOD) (ticks_add (0 % TICKS_PERIOD) 30000)
      witnessPulseTrace = .exited 2 3 [⟨true, 3, 1⟩, ⟨false, 0, 0⟩] := by decide
  have hfall : wait_fall 3 (0 % TICKS_PERIOD) (ticks_add (0 % TICKS_PERIOD) 30000)
      ([⟨true, 3, 1⟩, ⟨false, 0, 0⟩] : List EchoSample) = .exited 6 7 [] := by
    decide
  have hd : ticks_diff 6 2 = 4 := by decide
  have hout : measureOutcome 0 witnessPulseTrace = some (.ok (20 / 291)) := by
    simp only [measureOutcome, hrise, hfall, hd]
    norm_num
  exact measure_distance_nonneg_amended 0 witnessPulseTrace (20 / 291)
    (by decide) (by decide) hout

/-- C9: startup connectivity failure returns before the loop is
entered; once connected, the loop performs one iteration per event —
a fault never terminates it — and every faulting iteration is followed
by the recovery sleep 5 while every normal one is followed by the
interval sleep 10. -/
theorem run_loop_fault_isolation :
    ∀ (s : Session) (evs : List IterEvent),
    run false s evs = none ∧
    run true s evs = some (runLoop s evs) ∧
    (runLoop s evs).2 = evs.map sleepFor := by
  intro s evs
  refine ⟨rfl, rfl, ?_⟩
  induction evs generalizing s with
  | nil => rfl
  | cons ev rest ih =>
    cases ev with
    | normal it => simp [runLoop, runStep, sleepFor, ih]
    | fault a => simp [runLoop, runStep, sleepFor, ih]

end WasteBin
